import Mathlib

/-!
Shallow embedding of `src/igloosphinx/inventory.py` (class `Inventory`).

External collaborators (the `requests` HTTP transport, the `pypi-docs-url`
subprocess, PyPI's JSON metadata endpoint) are modelled as injected values:
each network call is represented by the response the collaborator would
return, and each Python exception by a constructor of `PyErr`.
Python's `str` is Lean's `String`, bytes are `List Nat`, and a Polars
DataFrame of the three fixed columns is a structure of three lists.
-/

/-- Python exceptions raised (or propagated) by `inventory.py`:
`ValueError` with its message, the two `requests` transport exceptions
that `requests.get` can raise (timeout, connection failure), and
`subprocess.CalledProcessError` carrying the nonzero return code that
`subprocess.run(..., check=True)` raises. -/
inductive PyErr where
  | valueError : String → PyErr
  | requestsTimeout : PyErr
  | requestsConnectionError : PyErr
  | calledProcessError : Nat → PyErr
deriving Repr, DecidableEq

/-- Outcome of a `requests.get` call: either a response arrived, or the
request timed out, or the connection failed. -/
inductive NetResult (α : Type) where
  | success : α → NetResult α
  | timeout : NetResult α
  | connectionError : NetResult α
deriving Repr, DecidableEq

/-- The part of PyPI's JSON metadata response that
`_fallback_metadata_lookup` reads: the HTTP status code and
`data["info"].get("project_urls", {})` as an association list
(an absent `project_urls` key is the empty list, matching the `{}`
default). -/
structure MetadataResponse where
  status_code : Nat
  info_project_urls : List (String × String)
deriving Repr, DecidableEq

/-- The `requests.Response.ok` property: true iff the status code is
below 400. -/
def MetadataResponse.ok (r : MetadataResponse) : Bool :=
  r.status_code < 400

/-- An HTTP response as read by `_download_inventory`: status code and
body bytes. -/
structure HTTPResponse where
  status_code : Nat
  content : List Nat
deriving Repr, DecidableEq

/-- Python `dict.get(k)`: the value at the first matching key, else
`None`. -/
def dict_get (d : List (String × String)) (k : String) : Option String :=
  (d.find? (fun p => p.1 == k)).map (fun p => p.2)

/-- Python `s.endswith("/")`: the last character of `s` is `/`. -/
def ends_with_slash (s : String) : Bool :=
  s.data.getLast? == some '/'

/-- Python `s[:-1]`: the string without its last character. -/
def drop_last_char (s : String) : String :=
  ⟨s.data.dropLast⟩

/-- The Polars DataFrame shape built by `inventory.py`: three parallel
columns `symbol_name`, `symbol_type`, `reference_url`. -/
structure DataFrame where
  symbol_name : List String
  symbol_type : List String
  reference_url : List String
deriving Repr, DecidableEq

/-- The number of rows of the frame. -/
def DataFrame.height (df : DataFrame) : Nat :=
  df.symbol_name.length

/-- Polars `df.lazy().collect()`: converting to a LazyFrame and
collecting immediately round-trips to an equal frame (Polars library
semantics). -/
def lazy_collect (df : DataFrame) : DataFrame :=
  df

/-- The constant DataFrame literal that `_parse_inventory` constructs. -/
def placeholder_df : DataFrame :=
  { symbol_name := ["polars.Series.dtype", "polars.Series.flags"],
    symbol_type := ["py:attribute", "py:attribute"],
    reference_url :=
      ["reference/series/api/polars.Series.dtype.html#polars.Series.dtype",
       "reference/series/api/polars.Series.flags.html#polars.Series.flags"] }

/-- Outcome of the `subprocess.run(["pypi-docs-url", package_name], ...)`
call: the executable is not installed (`FileNotFoundError`), or it ran
and produced a return code and captured stdout. -/
inductive SubprocResult where
  | notInstalled : SubprocResult
  | ran : Nat → String → SubprocResult
deriving Repr, DecidableEq

/-- `Inventory._fallback_metadata_lookup`: queries PyPI's JSON endpoint
(result injected as `pypi_response`), raises `ValueError` when
`response.ok` is false or when `project_urls` has no truthy
`Documentation` entry, and otherwise strips one trailing `/` from the
documentation URL and appends `/objects.inv`. -/
def _fallback_metadata_lookup (package_name : String)
    (pypi_response : NetResult MetadataResponse) : Except PyErr String :=
  match pypi_response with
  | .timeout => .error .requestsTimeout
  | .connectionError => .error .requestsConnectionError
  | .success response =>
    if response.ok then
      match dict_get response.info_project_urls "Documentation" with
      | none =>
        .error (.valueError
          ("No documentation URL found in PyPI metadata for " ++ package_name))
      | some doc_url =>
        if doc_url.data.isEmpty then
          .error (.valueError
            ("No documentation URL found in PyPI metadata for " ++ package_name))
        else
          .ok ((if ends_with_slash doc_url then drop_last_char doc_url
                else doc_url) ++ "/objects.inv")
    else
      .error (.valueError
        ("Could not fetch PyPI metadata for " ++ package_name))

/-- `Inventory._discover_objects_inv`: runs the `pypi-docs-url`
subprocess with `check=True`. On `FileNotFoundError` (executable not
installed) it falls back to `_fallback_metadata_lookup`; on a nonzero
exit `subprocess.run` raises `CalledProcessError`, which the function
does not catch; on a zero exit the loop over stdout does nothing
(`pass`) and the hard-coded placeholder URL is returned. -/
def _discover_objects_inv (package_name : String)
    (subproc_result : SubprocResult)
    (pypi_response : NetResult MetadataResponse) : Except PyErr String :=
  match subproc_result with
  | .ran returncode _stdout =>
    if returncode == 0 then
      .ok "https://docs.pola.rs/api/python/stable/objects.inv"
    else
      .error (.calledProcessError returncode)
  | .notInstalled => _fallback_metadata_lookup package_name pypi_response

/-- `Inventory._download_inventory`: `requests.get(url, timeout=10)`
(result injected as `http_response`); raises `ValueError` when the
status code is not 200, else returns `resp.content`. -/
def _download_inventory (url : String)
    (http_response : NetResult HTTPResponse) : Except PyErr (List Nat) :=
  match http_response with
  | .timeout => .error .requestsTimeout
  | .connectionError => .error .requestsConnectionError
  | .success resp =>
    if resp.status_code == 200 then
      .ok resp.content
    else
      .error (.valueError ("Failed to retrieve objects.inv at " ++ url))

/-- `Inventory._parse_inventory`: ignores `raw_inv` entirely and builds
the fixed two-row DataFrame literal; when `self.lazy` it returns
`df.lazy().collect()`, otherwise `df`. The Python body raises no
exception, hence every branch is `Except.ok`. -/
def _parse_inventory (lazy : Bool) (_raw_inv : List Nat) :
    Except PyErr DataFrame :=
  let df := placeholder_df
  if lazy then .ok (lazy_collect df) else .ok df

/-- The constructor state of the `Inventory` class:
`package_name`, `version` and `lazy`. -/
structure Inventory where
  package_name : String
  version : String
  lazy : Bool
deriving Repr, DecidableEq

/-- The injected external collaborators of one `fetch_inventory` run:
the subprocess outcome, the PyPI metadata response, and the HTTP
response for each URL that may be fetched. -/
structure Collaborators where
  subproc_result : SubprocResult
  pypi_response : NetResult MetadataResponse
  http_response : String → NetResult HTTPResponse

/-- `Inventory.fetch_inventory`: discover the objects.inv URL, download
it, parse it; any exception from a step propagates unchanged (Python's
exception flow, made explicit as `Except`). -/
def fetch_inventory (self : Inventory) (w : Collaborators) :
    Except PyErr DataFrame :=
  Except.bind
    (_discover_objects_inv self.package_name w.subproc_result w.pypi_response)
    (fun objects_inv_url =>
      Except.bind
        (_download_inventory objects_inv_url
          (w.http_response objects_inv_url))
        (fun raw_inv => _parse_inventory self.lazy raw_inv))

/-- Helper: `_parse_inventory` returns the fixed placeholder frame for
every flag and payload. -/
theorem parse_eq_placeholder (lazy : Bool) (raw_inv : List Nat) :
    _parse_inventory lazy raw_inv = Except.ok placeholder_df := by
  cases lazy <;> rfl

/-- C1: the claim says decode returns one record per non-blank
decompressed line, in payload order, none dropped. The code's
`_parse_inventory` never decompresses or reads the payload: for every
payload and lazy flag it returns the fixed two-row placeholder table,
so the row count is 2 whatever the payload's line count. -/
theorem parse_ignores_payload (lazy : Bool) (raw_inv : List Nat) :
    _parse_inventory lazy raw_inv = Except.ok placeholder_df ∧
      placeholder_df.height = 2 :=
  ⟨parse_eq_placeholder lazy raw_inv, rfl⟩

/-- C2: the claim says decode fails with `FormatError` on a bad
signature, a failed decompression, or (strict mode) an unparsable
line. The code's `_parse_inventory` validates nothing and can never
fail: it succeeds on every input. -/
theorem parse_never_fails (lazy : Bool) (raw_inv : List Nat) :
    ∃ df, _parse_inventory lazy raw_inv = Except.ok df :=
  ⟨placeholder_df, parse_eq_placeholder lazy raw_inv⟩

/-- C3: the claim says a raw location ending in `$` has that `$`
replaced by the record name. The code performs no such substitution:
the `reference_url` column is a pair of hard-coded constants,
independent of any location field of the payload. -/
theorem parse_locations_are_constants (lazy : Bool) (raw_inv : List Nat) :
    (_parse_inventory lazy raw_inv).map DataFrame.reference_url =
      Except.ok
        ["reference/series/api/polars.Series.dtype.html#polars.Series.dtype",
         "reference/series/api/polars.Series.flags.html#polars.Series.flags"] := by
  rw [parse_eq_placeholder]
  rfl

/-- C4: `_fallback_metadata_lookup` raises a `ValueError` (the spec's
`ResolutionError`) whenever the PyPI metadata response has a
non-success status (400 or above, i.e. `response.ok` false) or its
`project_urls` has no `Documentation` entry. -/
theorem fallback_resolution_failure (package_name : String)
    (resp : MetadataResponse)
    (h : 400 ≤ resp.status_code ∨
      dict_get resp.info_project_urls "Documentation" = none) :
    ∃ msg, _fallback_metadata_lookup package_name (NetResult.success resp) =
      Except.error (PyErr.valueError msg) := by
  rcases h with h | h
  · refine ⟨"Could not fetch PyPI metadata for " ++ package_name, ?_⟩
    have hok : resp.ok = false := by
      simp only [MetadataResponse.ok, decide_eq_false_iff_not]
      omega
    simp [_fallback_metadata_lookup, hok]
  · by_cases hok : resp.ok = true
    · refine ⟨"No documentation URL found in PyPI metadata for " ++
        package_name, ?_⟩
      simp [_fallback_metadata_lookup, hok, h]
    · refine ⟨"Could not fetch PyPI metadata for " ++ package_name, ?_⟩
      rw [Bool.not_eq_true] at hok
      simp [_fallback_metadata_lookup, hok]

/-- C4 witness: a 404 metadata response for `examplepkg` makes the
fallback lookup fail. -/
theorem fallback_resolution_failure_witness :
    ∃ msg, _fallback_metadata_lookup "examplepkg"
        (NetResult.success ⟨404, [("Documentation", "https://docs.example.com/")]⟩) =
      Except.error (PyErr.valueError msg) :=
  fallback_resolution_failure "examplepkg"
    ⟨404, [("Documentation", "https://docs.example.com/")]⟩ (Or.inl (by decide))

/-- C5: `_download_inventory` raises `ValueError` (the spec's
`TransportError`) on every non-200 response status, and propagates the
`requests` timeout and connection-failure exceptions (the spec's
`NetworkError`). -/
theorem download_error_taxonomy (url : String) (resp : HTTPResponse) :
    (resp.status_code ≠ 200 →
      _download_inventory url (NetResult.success resp) =
        Except.error (PyErr.valueError
          ("Failed to retrieve objects.inv at " ++ url))) ∧
    _download_inventory url NetResult.timeout =
      Except.error PyErr.requestsTimeout ∧
    _download_inventory url NetResult.connectionError =
      Except.error PyErr.requestsConnectionError := by
  refine ⟨fun h => ?_, rfl, rfl⟩
  simp [_download_inventory, h]

/-- C5 witness: a 404 response for the example inventory URL yields the
`ValueError`, and a timeout yields the timeout exception. -/
theorem download_error_taxonomy_witness :
    _download_inventory "https://docs.example.com/objects.inv"
        (NetResult.success ⟨404, []⟩) =
      Except.error (PyErr.valueError
        ("Failed to retrieve objects.inv at " ++
          "https://docs.example.com/objects.inv")) ∧
    _download_inventory "https://docs.example.com/objects.inv"
        NetResult.timeout = Except.error PyErr.requestsTimeout :=
  ⟨(download_error_taxonomy "https://docs.example.com/objects.inv"
      ⟨404, []⟩).1 (by decide),
   (download_error_taxonomy "https://docs.example.com/objects.inv"
      ⟨404, []⟩).2.1⟩

/-- C6: when the `pypi-docs-url` executable is unavailable
(`FileNotFoundError`, i.e. not installed), `_discover_objects_inv` is
exactly the fallback metadata lookup: the primary strategy's
unavailability never becomes a failure. -/
theorem discover_falls_back_when_not_installed (package_name : String)
    (pypi_response : NetResult MetadataResponse) :
    _discover_objects_inv package_name SubprocResult.notInstalled
        pypi_response =
      _fallback_metadata_lookup package_name pypi_response := rfl

/-- C7: on a successful metadata response carrying a non-empty
`Documentation` URL, the fallback lookup strips exactly one trailing
`/` when present and appends `/objects.inv`; in particular the two
example bases both yield `https://docs.example.com/objects.inv`. -/
theorem fallback_url_normalization :
    (∀ (package_name doc_url : String) (resp : MetadataResponse),
        resp.status_code < 400 →
        dict_get resp.info_project_urls "Documentation" = some doc_url →
        doc_url.data.isEmpty = false →
        _fallback_metadata_lookup package_name (NetResult.success resp) =
          Except.ok ((if ends_with_slash doc_url then drop_last_char doc_url
            else doc_url) ++ "/objects.inv")) ∧
    _fallback_metadata_lookup "examplepkg"
        (NetResult.success
          ⟨200, [("Documentation", "https://docs.example.com/")]⟩) =
      Except.ok "https://docs.example.com/objects.inv" ∧
    _fallback_metadata_lookup "examplepkg"
        (NetResult.success
          ⟨200, [("Documentation", "https://docs.example.com")]⟩) =
      Except.ok "https://docs.example.com/objects.inv" := by
  refine ⟨fun package_name doc_url resp hstatus hdoc hne => ?_, by rfl, by rfl⟩
  have hok : resp.ok = true := decide_eq_true hstatus
  simp [_fallback_metadata_lookup, hok, hdoc, hne]

/-- C7 witness: the general normalization rule instantiated at the
trailing-slash example base. -/
theorem fallback_url_normalization_witness :
    _fallback_metadata_lookup "examplepkg"
        (NetResult.success
          ⟨200, [("Documentation", "https://docs.example.com/")]⟩) =
      Except.ok ((if ends_with_slash "https://docs.example.com/" then
        drop_last_char "https://docs.example.com/"
        else "https://docs.example.com/") ++ "/objects.inv") :=
  fallback_url_normalization.1 "examplepkg" "https://docs.example.com/"
    ⟨200, [("Documentation", "https://docs.example.com/")]⟩
    (by decide) (by decide) (by decide)

/-- C8: with the same package name, version and collaborator responses,
`fetch_inventory` returns the same table whether `lazy` is true or
false: the flag only routes the fixed frame through
`df.lazy().collect()`, which is the identity. -/
theorem fetch_inventory_lazy_irrelevant (package_name version : String)
    (l₁ l₂ : Bool) (w : Collaborators) :
    fetch_inventory ⟨package_name, version, l₁⟩ w =
      fetch_inventory ⟨package_name, version, l₂⟩ w := by
  refine congrArg
    (Except.bind
      (_discover_objects_inv package_name w.subproc_result w.pypi_response))
    (funext fun objects_inv_url => ?_)
  refine congrArg
    (Except.bind
      (_download_inventory objects_inv_url
        (w.http_response objects_inv_url)))
    (funext fun raw_inv => ?_)
  rw [parse_eq_placeholder, parse_eq_placeholder]

/-- C9: whenever the `pypi-docs-url` subprocess is installed and exits
with code 0, `_discover_objects_inv` returns the hard-coded URL
`https://docs.pola.rs/api/python/stable/objects.inv`, for every package
name and every captured stdout (the loop over stdout is a no-op). -/
theorem discover_returns_constant_on_success (package_name stdout : String)
    (pypi_response : NetResult MetadataResponse) :
    _discover_objects_inv package_name (SubprocResult.ran 0 stdout)
        pypi_response =
      Except.ok "https://docs.pola.rs/api/python/stable/objects.inv" := rfl

/-- C10: the `version` constructor argument is never read by
`fetch_inventory` or its helpers: two runs differing only in `version`
return identical results. -/
theorem fetch_inventory_version_irrelevant (package_name v₁ v₂ : String)
    (lazy : Bool) (w : Collaborators) :
    fetch_inventory ⟨package_name, v₁, lazy⟩ w =
      fetch_inventory ⟨package_name, v₂, lazy⟩ w := rfl
